import Mathlib

/-!
Shallow embedding of the mcp-atlassian protocol engine and transport bridge
(`mcp_methods.py`, `validation.py`, `http_server.py`) together with theorems
settling the frozen specification claims.

Modelling conventions:
* Python strings are Lean `String` (a wrapped `List Char`); the Python string
  operations used by the code (`str.replace`, `str.split`, `str.startswith`,
  slicing `s[:n]`, `len`) are given explicit executable models below.
* Python JSON-ish values (request params, tool arguments) are the inductive
  `JVal`; a Python `dict` is an association list `PyDict`.
* Python exceptions are the record `PyExc` carrying the exception class name,
  the message (`str(e)`), and the optional `e.response.status_code` that the
  logging paths probe with `hasattr(e, 'response')`.
* Fallible Python code is `Except PyExc`; the external Confluence/Jira
  fetchers (out of scope per the spec) are oracle records whose fields have
  exactly the shapes the engine's call sites require.
-/

namespace MCPAtlassian

/-! ## Python string primitives -/

/-- Model of Python `str.replace(old, new)` on character lists: replaces every
non-overlapping occurrence of `old` left to right.  The fuel argument (always
instantiated with the length of the list) makes the recursion structural. -/
def pyReplaceAux (old new : List Char) : Nat → List Char → List Char
  | _, [] => []
  | 0, l => l
  | fuel + 1, c :: rest =>
    if old ≠ [] ∧ old.isPrefixOf (c :: rest) then
      new ++ pyReplaceAux old new fuel ((c :: rest).drop old.length)
    else
      c :: pyReplaceAux old new fuel rest

/-- Python `s.replace(old, new)`. -/
def pyReplace (s old new : String) : String :=
  ⟨pyReplaceAux old.data new.data s.data.length s.data⟩

/-- Model of Python `str.split(sep)` (non-empty separator) on character
lists: splits on every non-overlapping occurrence of `sep`, keeping empty
segments, and returns `[[]]` on the empty string. -/
def pySplitAux (sep : List Char) : Nat → List Char → List (List Char)
  | _, [] => [[]]
  | 0, l => [l]
  | fuel + 1, c :: rest =>
    if sep ≠ [] ∧ sep.isPrefixOf (c :: rest) then
      [] :: pySplitAux sep fuel ((c :: rest).drop sep.length)
    else
      match pySplitAux sep fuel rest with
      | [] => [[c]]
      | seg :: segs => (c :: seg) :: segs

/-- Python `s.split(sep)`. -/
def pySplit (s sep : String) : List String :=
  (pySplitAux sep.data s.data.length s.data).map String.mk

/-- Python `s.startswith(p)`. -/
def pyStartsWith (s p : String) : Bool :=
  p.data.isPrefixOf s.data

/-- Python slice `s[:n]` (first `n` characters). -/
def pySlice (s : String) (n : Nat) : String :=
  ⟨s.data.take n⟩

/-! ## JSON-ish values and Python dicts -/

/-- A Python/JSON value as it appears in request params and tool arguments. -/
inductive JVal where
  | jstr (s : String)
  | jint (n : Int)
  | jbool (b : Bool)
  | jnull
  | jobj (fields : List (String × JVal))

/-- A Python `dict` with string keys. -/
abbrev PyDict := List (String × JVal)

/-- Python `k in d`. -/
def hasKey (d : PyDict) (k : String) : Bool :=
  d.any (fun kv => kv.1 == k)

/-- Python `d.get(k)` (`None` when absent). -/
def pyGet (d : PyDict) (k : String) : Option JVal :=
  (d.find? (fun kv => kv.1 == k)).map (fun kv => kv.2)

/-- Python `d.get(k, default)`. -/
def pyGetD (d : PyDict) (k : String) (dflt : JVal) : JVal :=
  (pyGet d k).getD dflt

/-- Python `d[k]` where the key is known to be present; returns `jnull`
outside that domain (the code only indexes keys it has checked or will let
`KeyError` be modelled by `pyItem` below). -/
def pyIndex (d : PyDict) (k : String) : JVal :=
  (pyGet d k).getD JVal.jnull

/-! ## Python exceptions -/

/-- A Python exception as the engine observes it: class name, `str(e)`, and
the optional `e.response.status_code` probed via `hasattr(e, 'response')`. -/
structure PyExc where
  typeName : String
  msg : String
  responseStatus : Option Nat
deriving DecidableEq

/-- Python `ValueError(m)`. -/
def valueError (m : String) : PyExc :=
  ⟨"ValueError", m, none⟩

/-- Python `KeyError` raised by `d[k]` on a missing key (`str` of a KeyError
is the quoted key). -/
def keyError (k : String) : PyExc :=
  ⟨"KeyError", "'" ++ k ++ "'", none⟩

/-- Python `d[k]` as a fallible lookup: `KeyError` when the key is absent. -/
def pyItem (d : PyDict) (k : String) : Except PyExc JVal :=
  match pyGet d k with
  | some v => Except.ok v
  | none => Except.error (keyError k)

/-- Python `int(v)` on a JSON-ish value: identity on integers, 0/1 on
booleans, and an error on strings/null/objects (the code never relies on
string-to-int parsing). -/
def pyInt : JVal → Except PyExc Int
  | JVal.jint n => Except.ok n
  | JVal.jbool b => Except.ok (if b then 1 else 0)
  | JVal.jstr s => Except.error (valueError ("invalid literal for int() with base 10: " ++ s))
  | JVal.jnull => Except.error ⟨"TypeError", "int() argument must not be None", none⟩
  | JVal.jobj _ => Except.error ⟨"TypeError", "int() argument must not be a dict", none⟩

/-- Python truthiness of a JSON-ish value. -/
def pyTruthy : JVal → Bool
  | JVal.jstr s => s != ""
  | JVal.jint n => n != 0
  | JVal.jbool b => b
  | JVal.jnull => false
  | JVal.jobj fields => !fields.isEmpty

/-! ## Validation layer (`validation.py`)

`fastapi.HTTPException(status_code, detail)` is modelled by `HTTPExc`;
`detail` is either a plain string or the structured
`{"message": ..., "missing": {...}}` dict the missing-field reports use. -/

/-- The `detail` payload of a validation `HTTPException`. -/
inductive VDetail where
  | text (s : String)
  | missingFields (message : String) (missing : List (String × String))
deriving DecidableEq

/-- `fastapi.HTTPException`. -/
structure HTTPExc where
  status_code : Nat
  detail : VDetail
deriving DecidableEq

/-- The `required_fields` dict of `validate_initialize_params`. -/
def required_fields_init : List (String × String) :=
  [("protocolVersion", "Protocol version is required for version negotiation"),
   ("capabilities", "Client capabilities are required for capability negotiation"),
   ("clientInfo", "Client implementation information is required")]

/-- `validate_initialize_params` from `validation.py`. -/
def validate_initialize_params (params : Option PyDict) : Except HTTPExc Unit :=
  match params with
  | none =>
    Except.error ⟨400,
      VDetail.text "Initialize request requires params with protocolVersion, capabilities, and clientInfo"⟩
  | some p =>
    let missing := required_fields_init.filter (fun kv => !(hasKey p kv.1))
    match missing with
    | _ :: _ =>
      Except.error ⟨400, VDetail.missingFields "Initialize request missing required fields" missing⟩
    | [] =>
      match pyIndex p "protocolVersion" with
      | JVal.jstr _ =>
        match pyIndex p "capabilities" with
        | JVal.jobj _ =>
          match pyIndex p "clientInfo" with
          | JVal.jobj client_info =>
            if hasKey client_info "name" && hasKey client_info "version" then
              Except.ok ()
            else
              Except.error ⟨400, VDetail.text "clientInfo must include name and version"⟩
          | _ => Except.error ⟨400, VDetail.text "clientInfo must be an object"⟩
        | _ => Except.error ⟨400, VDetail.text "capabilities must be an object"⟩
      | _ => Except.error ⟨400, VDetail.text "protocolVersion must be a string"⟩

/-- `validate_read_resource_params` from `validation.py`. -/
def validate_read_resource_params (params : Option PyDict) : Except HTTPExc Unit :=
  match params with
  | none => Except.error ⟨400, VDetail.text "resources/read request requires uri parameter"⟩
  | some p =>
    if hasKey p "uri" then Except.ok ()
    else Except.error ⟨400, VDetail.text "resources/read request requires uri parameter"⟩

/-- `validate_call_tool_params` from `validation.py`: only the `name`
parameter is checked. -/
def validate_call_tool_params (params : Option PyDict) : Except HTTPExc Unit :=
  match params with
  | none => Except.error ⟨400, VDetail.text "tools/call request requires name parameter"⟩
  | some p =>
    if hasKey p "name" then Except.ok ()
    else Except.error ⟨400, VDetail.text "tools/call request requires name parameter"⟩

/-- `validate_complete_params` from `validation.py`. -/
def validate_complete_params (params : Option PyDict) : Except HTTPExc Unit :=
  match params with
  | none =>
    Except.error ⟨400, VDetail.text "completion/complete request requires ref and argument parameters"⟩
  | some p =>
    let required : List (String × String) :=
      [("ref", "Reference to resource or prompt is required"),
       ("argument", "Completion argument is required")]
    let missing := required.filter (fun kv => !(hasKey p kv.1))
    match missing with
    | _ :: _ =>
      Except.error ⟨400,
        VDetail.missingFields "completion/complete request missing required fields" missing⟩
    | [] => Except.ok ()

/-- `validate_request` from `validation.py`: the `VALIDATORS` dispatch;
unknown methods pass through unchecked. -/
def validate_request (method : String) (params : Option PyDict) : Except HTTPExc Unit :=
  if method = "initialize" then validate_initialize_params params
  else if method = "resources/read" then validate_read_resource_params params
  else if method = "tools/call" then validate_call_tool_params params
  else if method = "completion/complete" then validate_complete_params params
  else Except.ok ()

/-! ## Provider data shapes (the Document values the fetchers return)

The Confluence/Jira fetchers themselves are external collaborators (spec §1);
only the shapes the engine consumes are modelled.  A langchain `Document`
becomes a record of its `page_content` and the metadata fields the engine
reads. -/

/-- A Confluence space record as consumed by `list_resources`:
`space['key']`, `space['name']` and the extracted
`space.get("description", {}).get("plain", {}).get("value", "")`. -/
structure SpaceRec where
  key : String
  name : String
  description : String
deriving DecidableEq

/-- `get_spaces()` returns either a dict containing a `"results"` list or
some other value (the code guards with `isinstance(..., dict) and "results"
in ...`). -/
inductive SpacesResponse where
  | withResults (spaces : List SpaceRec)
  | other
deriving DecidableEq

/-- A Jira project record as consumed by `list_resources`. -/
structure ProjectRec where
  key : String
  name : String
  description : String
deriving DecidableEq

/-- A Confluence page document: `metadata['title']` and `page_content`. -/
structure PageDoc where
  title : String
  page_content : String
deriving DecidableEq

/-- Metadata of a Confluence search-result document. -/
structure ConfSearchMeta where
  page_id : String
  title : String
  space : String
  url : String
  last_modified : String
  type : String
deriving DecidableEq

/-- A Confluence search-result document. -/
structure ConfSearchDoc where
  metadata : ConfSearchMeta
  page_content : String
deriving DecidableEq

/-- A Confluence page document with its full metadata dict
(`confluence_get_page` serializes the metadata wholesale). -/
structure ConfPageDoc where
  page_content : String
  metadata : PyDict

/-- A Confluence comment document. -/
structure CommentDoc where
  author_name : String
  last_modified : String
  page_content : String
deriving DecidableEq

/-- Metadata of a Jira issue document. -/
structure JiraMeta where
  key : String
  title : String
  type : String
  status : String
  created_date : String
  priority : String
  link : String
deriving DecidableEq

/-- A Jira issue document. -/
structure JiraDoc where
  metadata : JiraMeta
  page_content : String
deriving DecidableEq

/-! ## Fetcher oracles

Each field is one method of the external fetcher, typed with exactly what the
engine's call sites pass: raw `JVal` where a tool handler forwards an
argument unchanged, `String` where a parsed URI segment is passed, and
`Except PyExc` results since any provider call may raise. -/

/-- The `ConfluenceFetcher` collaborator. -/
structure ConfluenceFetcher where
  get_spaces : Except PyExc SpacesResponse
  get_space_pages : String → Except PyExc (List PageDoc)
  get_page_by_title : String → String → Except PyExc (Option PageDoc)
  search : JVal → Int → Except PyExc (List ConfSearchDoc)
  get_page_content : JVal → Except PyExc ConfPageDoc
  get_page_comments : JVal → Except PyExc (List CommentDoc)

/-- The `JiraFetcher` collaborator.  `get_issue` takes the issue key and the
optional `expand` argument; `get_project_issues` takes the project key and
the optional `limit` (the resource-read path passes no limit). -/
structure JiraFetcher where
  projects : Except PyExc (List ProjectRec)
  get_issue : JVal → Option JVal → Except PyExc JiraDoc
  search_issues : JVal → JVal → Int → Except PyExc (List JiraDoc)
  get_project_issues : JVal → Option Int → Except PyExc (List JiraDoc)

/-! ## `list_resources` (`mcp_methods.py` lines 24-77) -/

/-- An MCP `Resource` descriptor. -/
structure ResourceDesc where
  uri : String
  name : String
  mimeType : String
  description : String
deriving DecidableEq

/-- The descriptor built for one Confluence space. -/
def confluenceResource (s : SpaceRec) : ResourceDesc :=
  { uri := "confluence://" ++ s.key
    name := "Confluence Space: " ++ s.name
    mimeType := "text/plain"
    description := s.description }

/-- The descriptor built for one Jira project. -/
def jiraResource (p : ProjectRec) : ResourceDesc :=
  { uri := "jira://" ++ p.key
    name := "Jira Project: " ++ p.name
    mimeType := "text/plain"
    description := p.description }

/-- `list_resources`: the Confluence part runs outside any `try` (its
exceptions propagate); the Jira part is wrapped in `try/except Exception`
whose handler only logs, so a Jira failure is excluded from the result. -/
def list_resources (cf : ConfluenceFetcher) (jf : JiraFetcher) :
    Except PyExc (List ResourceDesc) :=
  match cf.get_spaces with
  | Except.error e => Except.error e
  | Except.ok resp =>
    let confluenceResources :=
      match resp with
      | SpacesResponse.withResults spaces => spaces.map confluenceResource
      | SpacesResponse.other => []
    let jiraResources :=
      match jf.projects with
      | Except.ok projects => projects.map jiraResource
      | Except.error _ => []
    Except.ok (confluenceResources ++ jiraResources)

/-! ## `read_resource` (`mcp_methods.py` lines 80-128) -/

/-- The `"# {title}\n\n{page_content}\n---"` blocks of a Confluence space
listing, joined by blank lines. -/
def renderSpacePages (docs : List PageDoc) : String :=
  String.intercalate "\n\n"
    (docs.map (fun d => "# " ++ d.title ++ "\n\n" ++ d.page_content ++ "\n---"))

/-- The `"# {key}: {title}\n\n{page_content}\n---"` blocks of a Jira project
listing, joined by blank lines. -/
def renderProjectIssues (docs : List JiraDoc) : String :=
  String.intercalate "\n\n"
    (docs.map
      (fun d => "# " ++ d.metadata.key ++ ": " ++ d.metadata.title ++ "\n\n"
        ++ d.page_content ++ "\n---"))

/-- `read_resource`: scheme dispatch on the URI string, then path-segment
dispatch on `uri.replace(scheme, "").split("/")`; any shape not handled
falls through to `ValueError("Invalid resource URI: ...")`. -/
def read_resource (cf : ConfluenceFetcher) (jf : JiraFetcher) (uri : String) :
    Except PyExc String :=
  if pyStartsWith uri "confluence://" then
    let parts := pySplit (pyReplace uri "confluence://" "") "/"
    if parts.length = 1 then
      match cf.get_space_pages (parts.getD 0 "") with
      | Except.error e => Except.error e
      | Except.ok docs => Except.ok (renderSpacePages docs)
    else if 3 ≤ parts.length ∧ parts.getD 1 "" = "pages" then
      match cf.get_page_by_title (parts.getD 0 "") (parts.getD 2 "") with
      | Except.error e => Except.error e
      | Except.ok none => Except.error (valueError ("Page not found: " ++ parts.getD 2 ""))
      | Except.ok (some doc) => Except.ok doc.page_content
    else
      Except.error (valueError ("Invalid resource URI: " ++ uri))
  else if pyStartsWith uri "jira://" then
    let parts := pySplit (pyReplace uri "jira://" "") "/"
    if parts.length = 1 then
      match jf.get_project_issues (JVal.jstr (parts.getD 0 "")) none with
      | Except.error e => Except.error e
      | Except.ok issues => Except.ok (renderProjectIssues issues)
    else if 3 ≤ parts.length ∧ parts.getD 1 "" = "issues" then
      match jf.get_issue (JVal.jstr (parts.getD 2 "")) none with
      | Except.error e => Except.error e
      | Except.ok issue => Except.ok issue.page_content
    else
      Except.error (valueError ("Invalid resource URI: " ++ uri))
  else
    Except.error (valueError ("Invalid resource URI: " ++ uri))

/-! ## `call_tool` (`mcp_methods.py` lines 333-444)

Each handler returns `[TextContent(type="text", text=json.dumps(X))]`; the
exact JSON text rendering is a spec non-goal (§1), so the output is modelled
as the structured value `X` that gets serialized. -/

/-- One item of the `confluence_search` result list. -/
structure ConfSearchItem where
  page_id : String
  title : String
  space : String
  url : String
  last_modified : String
  type : String
  excerpt : String
deriving DecidableEq

/-- The `confluence_search` result shaping. -/
def confSearchItem (d : ConfSearchDoc) : ConfSearchItem :=
  { page_id := d.metadata.page_id
    title := d.metadata.title
    space := d.metadata.space
    url := d.metadata.url
    last_modified := d.metadata.last_modified
    type := d.metadata.type
    excerpt := d.page_content }

/-- One item of the `confluence_get_comments` result list. -/
structure CommentItem where
  author : String
  created : String
  content : String
deriving DecidableEq

/-- The `confluence_get_comments` result shaping. -/
def commentItem (c : CommentDoc) : CommentItem :=
  { author := c.author_name, created := c.last_modified, content := c.page_content }

/-- One item of the `jira_search` result list. -/
structure JiraSearchItem where
  key : String
  title : String
  type : String
  status : String
  created_date : String
  priority : String
  link : String
  excerpt : String
deriving DecidableEq

/-- The `jira_search` result shaping, including the excerpt truncation
`doc.page_content[:500] + "..." if len(doc.page_content) > 500 else
doc.page_content`. -/
def jiraSearchItem (d : JiraDoc) : JiraSearchItem :=
  { key := d.metadata.key
    title := d.metadata.title
    type := d.metadata.type
    status := d.metadata.status
    created_date := d.metadata.created_date
    priority := d.metadata.priority
    link := d.metadata.link
    excerpt :=
      if 500 < d.page_content.length then pySlice d.page_content 500 ++ "..."
      else d.page_content }

/-- One item of the `jira_get_project_issues` result list (no `priority`,
no excerpt). -/
structure ProjectIssueItem where
  key : String
  title : String
  type : String
  status : String
  created_date : String
  link : String
deriving DecidableEq

/-- The `jira_get_project_issues` result shaping. -/
def projectIssueItem (d : JiraDoc) : ProjectIssueItem :=
  { key := d.metadata.key
    title := d.metadata.title
    type := d.metadata.type
    status := d.metadata.status
    created_date := d.metadata.created_date
    link := d.metadata.link }

/-- The structured value a `call_tool` handler serializes into its single
`TextContent`. -/
inductive ToolOutput where
  | confluenceSearch (items : List ConfSearchItem)
  | confluencePage (content : String) (metadata : Option PyDict)
  | confluenceComments (items : List CommentItem)
  | jiraIssue (content : String) (metadata : JiraMeta)
  | jiraSearch (items : List JiraSearchItem)
  | jiraProjectIssues (items : List ProjectIssueItem)

/-- The body of `call_tool`'s `try` block: name-keyed dispatch.  Argument
accesses mirror the code's order (`limit` is computed before the required
argument is first read). -/
def call_tool_inner (cf : ConfluenceFetcher) (jf : JiraFetcher)
    (name : String) (arguments : PyDict) : Except PyExc ToolOutput :=
  if name = "confluence_search" then do
    let lv ← pyInt (pyGetD arguments "limit" (JVal.jint 10))
    let limit := min lv 50
    let query ← pyItem arguments "query"
    let documents ← cf.search query limit
    Except.ok (ToolOutput.confluenceSearch (documents.map confSearchItem))
  else if name = "confluence_get_page" then do
    let page_id ← pyItem arguments "page_id"
    let doc ← cf.get_page_content page_id
    let include_metadata := pyTruthy (pyGetD arguments "include_metadata" (JVal.jbool true))
    Except.ok (ToolOutput.confluencePage doc.page_content
      (if include_metadata then some doc.metadata else none))
  else if name = "confluence_get_comments" then do
    let page_id ← pyItem arguments "page_id"
    let comments ← cf.get_page_comments page_id
    Except.ok (ToolOutput.confluenceComments (comments.map commentItem))
  else if name = "jira_get_issue" then do
    let issue_key ← pyItem arguments "issue_key"
    let doc ← jf.get_issue issue_key (pyGet arguments "expand")
    Except.ok (ToolOutput.jiraIssue doc.page_content doc.metadata)
  else if name = "jira_search" then do
    let lv ← pyInt (pyGetD arguments "limit" (JVal.jint 10))
    let limit := min lv 50
    let jql ← pyItem arguments "jql"
    let documents ← jf.search_issues jql (pyGetD arguments "fields" (JVal.jstr "*all")) limit
    Except.ok (ToolOutput.jiraSearch (documents.map jiraSearchItem))
  else if name = "jira_get_project_issues" then do
    let lv ← pyInt (pyGetD arguments "limit" (JVal.jint 10))
    let limit := min lv 50
    let project_key ← pyItem arguments "project_key"
    let documents ← jf.get_project_issues project_key (some limit)
    Except.ok (ToolOutput.jiraProjectIssues (documents.map projectIssueItem))
  else
    Except.error (valueError ("Unknown tool: " ++ name))

/-- `call_tool`: the `except Exception` boundary logs the failure (with
`e.response.status_code` when the exception exposes one) and re-raises
`RuntimeError(f"Tool execution failed: {str(e)}")`. -/
def call_tool (cf : ConfluenceFetcher) (jf : JiraFetcher)
    (name : String) (arguments : PyDict) : Except PyExc ToolOutput :=
  match call_tool_inner cf jf name arguments with
  | Except.ok r => Except.ok r
  | Except.error e =>
    Except.error ⟨"RuntimeError", "Tool execution failed: " ++ e.msg, none⟩

/-! ## Synchronous (HTTP) binding: `handle_mcp_request` (`http_server.py`
lines 85-154)

The 5-second wait on the outbound channel is modelled discretely: the
`outbound` argument is `some m` when a message `m` appears on
`server_to_client_receive` within the timeout, and `none` when the wait
times out (`asyncio.TimeoutError`). -/

/-- An incoming HTTP body: `JSONRPCRequest` (has an id) or
`JSONRPCNotification` (no id). -/
inductive RpcIn where
  | request (id : Int) (method : String) (params : Option PyDict)
  | reqNotify (method : String) (params : Option PyDict)

/-- The `method` field of the incoming message. -/
def RpcIn.method : RpcIn → String
  | RpcIn.request _ m _ => m
  | RpcIn.reqNotify m _ => m

/-- The `params` field of the incoming message. -/
def RpcIn.params : RpcIn → Option PyDict
  | RpcIn.request _ _ p => p
  | RpcIn.reqNotify _ p => p

/-- What may appear on the outbound channel: a `JSONRPCMessage` wrapping a
`JSONRPCResponse`, a `JSONRPCMessage` wrapping something else, or an
`Exception` object. -/
inductive OutMsg where
  | response (id : Int) (result : JVal)
  | nonResponse
  | exc (e : PyExc)

/-- An exception flowing through the HTTP handler: either a
`fastapi.HTTPException` or a plain Python exception. -/
inductive HandlerExc where
  | http (e : HTTPExc)
  | py (e : PyExc)

/-- `str(detail)` as the handler's outer `str(e)` sees it; for the
structured missing-field detail only the message text is modelled. -/
def detailText : VDetail → String
  | VDetail.text s => s
  | VDetail.missingFields m _ => m

/-- `str(e)` of a handler exception (starlette `HTTPException.__str__` is
`f"{status_code}: {detail}"`). -/
def excMsg : HandlerExc → String
  | HandlerExc.http e => toString e.status_code ++ ": " ++ detailText e.detail
  | HandlerExc.py e => e.msg

/-- What the HTTP caller observes: a JSON-RPC response body (HTTP 200), an
empty body (notification), or an HTTP-level failure raised as an
`HTTPException` that escapes the handler. -/
inductive HttpOutcome where
  | reply (id : Int) (result : JVal)
  | noContent
  | httpFailure (status : Nat) (detail : String)

/-- The `result` payload `{"error": {"code": c, "message": m}}` that the
outer handler embeds in a `JSONRPCResponse`. -/
def rpcErrorPayload (code : Int) (message : String) : JVal :=
  JVal.jobj [("error", JVal.jobj [("code", JVal.jint code), ("message", JVal.jstr message)])]

/-- The outer `except Exception` of `handle_mcp_request`: a request (has an
id) gets a normal `JSONRPCResponse` whose result embeds JSON-RPC error
`-32603`; a notification gets `HTTPException(500, str(e))`. -/
def outerCatch (req : RpcIn) (e : HandlerExc) : HttpOutcome :=
  match req with
  | RpcIn.request id _ _ => HttpOutcome.reply id (rpcErrorPayload (-32603) (excMsg e))
  | RpcIn.reqNotify _ _ => HttpOutcome.httpFailure 500 (excMsg e)

/-- The message of the `HTTPException(500, ...)` raised on
`asyncio.TimeoutError`. -/
def timeoutDetail : String := "No response received from MCP server"

/-- `handle_mcp_request`: validate, forward to the engine, and for a request
wait (up to 5 s) for the next outbound message.  Every raised exception —
validation `HTTPException(400)`, the timeout `HTTPException(500)`, an
exception object read off the channel, or the unexpected-type `ValueError`
— is caught by the outer `except Exception`. -/
def handle_mcp_request (req : RpcIn) (outbound : Option OutMsg) : HttpOutcome :=
  match validate_request req.method req.params with
  | Except.error ve => outerCatch req (HandlerExc.http ve)
  | Except.ok _ =>
    match req with
    | RpcIn.reqNotify _ _ => HttpOutcome.noContent
    | RpcIn.request _ _ _ =>
      match outbound with
      | none => outerCatch req (HandlerExc.http ⟨500, VDetail.text timeoutDetail⟩)
      | some (OutMsg.exc e) => outerCatch req (HandlerExc.py e)
      | some (OutMsg.response rid result) => HttpOutcome.reply rid result
      | some OutMsg.nonResponse =>
        outerCatch req (HandlerExc.py (valueError "Unexpected response type: JSONRPCMessage"))

/-- Whether the caller saw an HTTP 500 transport failure. -/
def isHttp500 : HttpOutcome → Bool
  | HttpOutcome.httpFailure 500 _ => true
  | _ => false

/-! ## Concrete instances used by witnesses and counterexamples -/

/-- A provider exception exposing an HTTP status code. -/
def provExc : PyExc := ⟨"HTTPError", "401 Client Error: Unauthorized", some 401⟩

/-- A rate-limit provider exception. -/
def rateExc : PyExc := ⟨"HTTPError", "429 Too Many Requests", some 429⟩

/-- A healthy Confluence fetcher with one space and one page. -/
def cfHealthy : ConfluenceFetcher :=
  { get_spaces := Except.ok (SpacesResponse.withResults [⟨"DEV", "Dev Space", "dev docs"⟩])
    get_space_pages := fun _ => Except.ok [⟨"Home", "welcome"⟩, ⟨"Guide", "steps"⟩]
    get_page_by_title := fun _ t => if t = "Home" then Except.ok (some ⟨"Home", "welcome"⟩) else Except.ok none
    search := fun _ _ => Except.ok []
    get_page_content := fun _ => Except.ok ⟨"body", []⟩
    get_page_comments := fun _ => Except.ok [] }

/-- A Confluence fetcher whose space listing raises. -/
def cfFailing : ConfluenceFetcher :=
  { cfHealthy with get_spaces := Except.error provExc }

/-- A Confluence fetcher whose search raises a rate-limit error. -/
def cfSearchFailing : ConfluenceFetcher :=
  { cfHealthy with search := fun _ _ => Except.error rateExc }

/-- A healthy Jira fetcher with one project. -/
def jfHealthy : JiraFetcher :=
  { projects := Except.ok [⟨"PROJ", "Project One", "tracker"⟩]
    get_issue := fun _ _ => Except.ok ⟨⟨"PROJ-1", "Fix it", "Task", "Open", "2024", "High", "url"⟩, "issue body"⟩
    search_issues := fun _ _ _ => Except.ok []
    get_project_issues := fun _ _ => Except.ok [] }

/-- A Jira fetcher whose project listing raises. -/
def jfFailing : JiraFetcher :=
  { jfHealthy with projects := Except.error provExc }

/-! ## Claim theorems -/

/-- C1 counterexample: The claim quantifies over either provider's
listing failing; but in `list_resources` only the Jira call sits inside a
`try`.  With the wiki/Confluence listing raising (and the tracker healthy),
the overall call fails instead of succeeding with the tracker-derived
subset. -/
theorem list_resources_wiki_failure_propagates :
    list_resources cfFailing jfHealthy = Except.error provExc := rfl

/-- C1 amended: A tracker/Jira listing failure is logged and its
descriptors excluded, and the call still succeeds returning exactly the
wiki/Confluence-derived descriptors; the symmetric tolerance for a wiki
failure does not hold (see the counterexample). -/
theorem list_resources_tracker_failure_excluded
    (cf : ConfluenceFetcher) (jf : JiraFetcher)
    (spaces : List SpaceRec) (e : PyExc)
    (hcf : cf.get_spaces = Except.ok (SpacesResponse.withResults spaces))
    (hjf : jf.projects = Except.error e) :
    list_resources cf jf = Except.ok (spaces.map confluenceResource) := by
  simp [list_resources, hcf, hjf]

/-- C1 witness: The amended theorem at a concrete healthy wiki provider
and a raising tracker provider. -/
theorem list_resources_tracker_failure_excluded_witness :
    list_resources cfHealthy jfFailing =
      Except.ok [confluenceResource ⟨"DEV", "Dev Space", "dev docs"⟩] :=
  list_resources_tracker_failure_excluded cfHealthy jfFailing
    [⟨"DEV", "Dev Space", "dev docs"⟩] provExc rfl rfl

/-- C3: Every exception escaping the `call_tool` dispatch (in particular
every provider-call failure) is caught at the boundary and re-raised as the
single generic `RuntimeError("Tool execution failed: ...")` with no
exception class or HTTP status code of the provider attached; consequently
two provider failures that differ only in their provider-specific detail
(status code, exception class) are indistinguishable to the caller. -/
theorem call_tool_collapses_provider_errors :
    (∀ (cf : ConfluenceFetcher) (jf : JiraFetcher) (name : String)
        (args : PyDict) (e : PyExc),
        call_tool_inner cf jf name args = Except.error e →
        call_tool cf jf name args =
          Except.error ⟨"RuntimeError", "Tool execution failed: " ++ e.msg, none⟩) ∧
    (∀ (cf₁ jf₁ cf₂ jf₂ name₁ name₂ args₁ args₂ e₁ e₂),
        call_tool_inner cf₁ jf₁ name₁ args₁ = Except.error e₁ →
        call_tool_inner cf₂ jf₂ name₂ args₂ = Except.error e₂ →
        e₁.msg = e₂.msg →
        call_tool cf₁ jf₁ name₁ args₁ = call_tool cf₂ jf₂ name₂ args₂) := by
  constructor
  · intro cf jf name args e h
    simp [call_tool, h]
  · intro cf₁ jf₁ cf₂ jf₂ name₁ name₂ args₁ args₂ e₁ e₂ h₁ h₂ hmsg
    simp [call_tool, h₁, h₂, hmsg]

/-- C3 witness: A rate-limited Confluence search (status code 429 on the
provider exception) surfaces as the generic failure with no status code. -/
theorem call_tool_collapses_provider_errors_witness :
    call_tool cfSearchFailing jfHealthy "confluence_search"
        [("query", JVal.jstr "type=page")] =
      Except.error ⟨"RuntimeError", "Tool execution failed: 429 Too Many Requests", none⟩ :=
  call_tool_collapses_provider_errors.1 cfSearchFailing jfHealthy
    "confluence_search" [("query", JVal.jstr "type=page")] rateExc rfl

/-- C9 counterexample: A `tools/call` params dict that contains `name`
but lacks `arguments` passes validation (`Except.ok`), so the validation
layer does not reject requests missing `arguments`. -/
theorem call_tool_validation_accepts_missing_arguments :
    hasKey [("name", JVal.jstr "confluence_search")] "arguments" = false ∧
    validate_request "tools/call" (some [("name", JVal.jstr "confluence_search")]) =
      Except.ok () := ⟨rfl, rfl⟩

/-- C9 amended: The validation layer requires only `name` for
`tools/call`: params containing `name` pass validation (whether or not
`arguments` is present), and params lacking `name` are rejected with the
HTTP 400 validation error. -/
theorem call_tool_validation_requires_only_name (p : PyDict) :
    (hasKey p "name" = true →
      validate_request "tools/call" (some p) = Except.ok ()) ∧
    (hasKey p "name" = false →
      validate_request "tools/call" (some p) =
        Except.error ⟨400, VDetail.text "tools/call request requires name parameter"⟩) := by
  constructor
  · intro h
    simp [validate_request, validate_call_tool_params, h]
  · intro h
    simp [validate_request, validate_call_tool_params, h]

/-- C9 amended witness: Params with `name` only (no `arguments`) pass;
params with `arguments` only (no `name`) are rejected. -/
theorem call_tool_validation_requires_only_name_witness :
    validate_request "tools/call" (some [("name", JVal.jstr "jira_search")]) =
      Except.ok () ∧
    validate_request "tools/call" (some [("arguments", JVal.jobj [])]) =
      Except.error ⟨400, VDetail.text "tools/call request requires name parameter"⟩ :=
  ⟨(call_tool_validation_requires_only_name [("name", JVal.jstr "jira_search")]).1 rfl,
   (call_tool_validation_requires_only_name [("arguments", JVal.jobj [])]).2 rfl⟩

/-- C2 counterexample: A valid Request (id = 1) whose wait on the
outbound channel times out does receive a server-error reply, but not as an
HTTP 500: the timeout `HTTPException(500)` is swallowed by the handler's
outer `except Exception`, which for a message with an id returns a normal
`JSONRPCResponse` (HTTP 200) embedding JSON-RPC error `-32603`. -/
theorem handle_mcp_request_timeout_not_http500 :
    isHttp500 (handle_mcp_request (RpcIn.request 1 "tools/list" none) none) = false ∧
    handle_mcp_request (RpcIn.request 1 "tools/list" none) none =
      HttpOutcome.reply 1
        (rpcErrorPayload (-32603) "500: No response received from MCP server") :=
  ⟨rfl, rfl⟩

/-- C2 amended: On the synchronous binding, every Request that passes
validation and for which no message appears on the outbound channel within
the 5-second timeout yields a server-error reply rather than blocking: a
normal JSON-RPC response for the request's id whose result embeds
internal-error code `-32603` (the timeout is not surfaced as HTTP 500; the
HTTP-500 path is reached only for failed notifications, which never wait). -/
theorem handle_mcp_request_timeout_internal_error
    (id : Int) (method : String) (params : Option PyDict)
    (hv : validate_request method params = Except.ok ()) :
    handle_mcp_request (RpcIn.request id method params) none =
      HttpOutcome.reply id
        (rpcErrorPayload (-32603) "500: No response received from MCP server") := by
  have : ("500: No response received from MCP server" : String) =
      excMsg (HandlerExc.http ⟨500, VDetail.text timeoutDetail⟩) := rfl
  rw [this]
  simp [handle_mcp_request, RpcIn.method, RpcIn.params, hv, outerCatch]

/-- C2 amended witness: The amended theorem at a concrete
`resources/list` request. -/
theorem handle_mcp_request_timeout_internal_error_witness :
    handle_mcp_request (RpcIn.request 7 "resources/list" none) none =
      HttpOutcome.reply 7
        (rpcErrorPayload (-32603) "500: No response received from MCP server") :=
  handle_mcp_request_timeout_internal_error 7 "resources/list" none rfl

/-- Reduction of a successful `Except` bind, used to expose which provider
call a tool dispatch performs. -/
theorem exceptOkBind {α β : Type} (a : α) (f : α → Except PyExc β) :
    (Except.ok a : Except PyExc α) >>= f = f a := rfl

/-- C4: For each limit-taking tool (`confluence_search`, `jira_search`,
`jira_get_project_issues`) the limit passed to the provider is
`min(requested_limit, 50)` — with the requested value defaulting to 10 when
the argument is absent, and no lower bound applied (`min l 50 = l` for any
`l ≤ 50`, including zero and negatives).  The first two conjuncts pin the
requested-or-default value; the last three show each dispatch consulting
its provider at exactly `min l 50`. -/
theorem tool_limits_clamped_to_50 :
    (∀ (args : PyDict) (l : Int),
        pyGet args "limit" = some (JVal.jint l) →
        pyInt (pyGetD args "limit" (JVal.jint 10)) = Except.ok l) ∧
    (∀ (args : PyDict),
        pyGet args "limit" = none →
        pyInt (pyGetD args "limit" (JVal.jint 10)) = Except.ok 10) ∧
    (∀ (cf : ConfluenceFetcher) (jf : JiraFetcher) (args : PyDict) (l : Int) (q : JVal),
        pyInt (pyGetD args "limit" (JVal.jint 10)) = Except.ok l →
        pyGet args "query" = some q →
        call_tool_inner cf jf "confluence_search" args =
          cf.search q (min l 50) >>=
            (fun docs => Except.ok (ToolOutput.confluenceSearch (docs.map confSearchItem)))) ∧
    (∀ (cf : ConfluenceFetcher) (jf : JiraFetcher) (args : PyDict) (l : Int) (jql : JVal),
        pyInt (pyGetD args "limit" (JVal.jint 10)) = Except.ok l →
        pyGet args "jql" = some jql →
        call_tool_inner cf jf "jira_search" args =
          jf.search_issues jql (pyGetD args "fields" (JVal.jstr "*all")) (min l 50) >>=
            (fun docs => Except.ok (ToolOutput.jiraSearch (docs.map jiraSearchItem)))) ∧
    (∀ (cf : ConfluenceFetcher) (jf : JiraFetcher) (args : PyDict) (l : Int) (pk : JVal),
        pyInt (pyGetD args "limit" (JVal.jint 10)) = Except.ok l →
        pyGet args "project_key" = some pk →
        call_tool_inner cf jf "jira_get_project_issues" args =
          jf.get_project_issues pk (some (min l 50)) >>=
            (fun docs => Except.ok (ToolOutput.jiraProjectIssues (docs.map projectIssueItem)))) := by
  refine ⟨?_, ?_, ?_, ?_, ?_⟩
  · intro args l h
    simp [pyGetD, h, pyInt]
  · intro args h
    simp [pyGetD, h, pyInt]
  · intro cf jf args l q hl hq
    simp [call_tool_inner, hl, pyItem, hq, exceptOkBind]
  · intro cf jf args l jql hl hq
    simp [call_tool_inner, hl, pyItem, hq, exceptOkBind]
  · intro cf jf args l pk hl hq
    simp [call_tool_inner, hl, pyItem, hq, exceptOkBind]

/-- C4 witness: A `confluence_search` call requesting limit 1000
dispatches with effective limit `min 1000 50 = 50`, a call with no limit
dispatches with the default 10, and a call requesting the negative limit -5
passes -5 through unclamped. -/
theorem tool_limits_clamped_to_50_witness :
    call_tool_inner cfHealthy jfHealthy "confluence_search"
        [("query", JVal.jstr "q"), ("limit", JVal.jint 1000)] =
      cfHealthy.search (JVal.jstr "q") 50 >>=
        (fun docs => Except.ok (ToolOutput.confluenceSearch (docs.map confSearchItem))) ∧
    call_tool_inner cfHealthy jfHealthy "confluence_search"
        [("query", JVal.jstr "q")] =
      cfHealthy.search (JVal.jstr "q") 10 >>=
        (fun docs => Except.ok (ToolOutput.confluenceSearch (docs.map confSearchItem))) ∧
    call_tool_inner cfHealthy jfHealthy "confluence_search"
        [("query", JVal.jstr "q"), ("limit", JVal.jint (-5))] =
      cfHealthy.search (JVal.jstr "q") (-5) >>=
        (fun docs => Except.ok (ToolOutput.confluenceSearch (docs.map confSearchItem))) :=
  ⟨tool_limits_clamped_to_50.2.2.1 cfHealthy jfHealthy
      [("query", JVal.jstr "q"), ("limit", JVal.jint 1000)] 1000 (JVal.jstr "q") rfl rfl,
   tool_limits_clamped_to_50.2.2.1 cfHealthy jfHealthy
      [("query", JVal.jstr "q")] 10 (JVal.jstr "q") rfl rfl,
   tool_limits_clamped_to_50.2.2.1 cfHealthy jfHealthy
      [("query", JVal.jstr "q"), ("limit", JVal.jint (-5))] (-5) (JVal.jstr "q") rfl rfl⟩

/-- A 650-character issue body. -/
def longBody : String := ⟨List.replicate 650 'a'⟩

/-- A 300-character issue body. -/
def shortBody : String := ⟨List.replicate 300 'b'⟩

/-- A Jira issue document with the 650-character body. -/
def docLong : JiraDoc := ⟨⟨"P-1", "long", "Task", "Open", "2024", "High", "u1"⟩, longBody⟩

/-- A Jira issue document with the 300-character body. -/
def docShort : JiraDoc := ⟨⟨"P-2", "short", "Bug", "Done", "2024", "Low", "u2"⟩, shortBody⟩

/-- A Jira fetcher whose search returns the long and the short documents. -/
def jfSearch : JiraFetcher :=
  { jfHealthy with search_issues := fun _ _ _ => Except.ok [docLong, docShort] }

/-- C5: Every `jira_search` result item's excerpt is the first 500
characters of the item's body followed by the `"..."` marker when the body
exceeds 500 characters — in which case the excerpt is exactly 500 + 3
characters long — and is the body verbatim otherwise. -/
theorem jira_search_excerpt_truncation
    (cf : ConfluenceFetcher) (jf : JiraFetcher) (args : PyDict)
    (jql : JVal) (l : Int) (docs : List JiraDoc)
    (hl : pyInt (pyGetD args "limit" (JVal.jint 10)) = Except.ok l)
    (hjql : pyGet args "jql" = some jql)
    (hdocs : jf.search_issues jql (pyGetD args "fields" (JVal.jstr "*all")) (min l 50) =
      Except.ok docs) :
    call_tool_inner cf jf "jira_search" args =
      Except.ok (ToolOutput.jiraSearch (docs.map jiraSearchItem)) ∧
    (∀ d ∈ docs, 500 < d.page_content.length →
      (jiraSearchItem d).excerpt = pySlice d.page_content 500 ++ "..." ∧
      ((jiraSearchItem d).excerpt).length = 503) ∧
    (∀ d ∈ docs, d.page_content.length ≤ 500 →
      (jiraSearchItem d).excerpt = d.page_content) := by
  refine ⟨?_, ?_, ?_⟩
  · simp [call_tool_inner, hl, pyItem, hjql, hdocs, exceptOkBind]
  · intro d _ hlen
    have hexc : (jiraSearchItem d).excerpt = pySlice d.page_content 500 ++ "..." := by
      simp only [jiraSearchItem]
      rw [if_pos hlen]
    refine ⟨hexc, ?_⟩
    have htake : (pySlice d.page_content 500).length = 500 := by
      have hmin : (d.page_content.data.take 500).length = min 500 d.page_content.data.length := by
        simp [List.length_take]
      have hlend : 500 ≤ d.page_content.data.length := by
        have hld : d.page_content.length = d.page_content.data.length := rfl
        omega
      have hps : (pySlice d.page_content 500).length = (d.page_content.data.take 500).length := rfl
      rw [hps, hmin]
      omega
    rw [hexc, String.length_append, htake]
    rfl
  · intro d _ hlen
    simp only [jiraSearchItem]
    rw [if_neg (Nat.not_lt.mpr hlen)]

set_option maxRecDepth 4000 in
/-- C5 witness: On a search returning a body of length 650 and a body of
length 300, the first excerpt is the 500-character slice plus the marker
(503 characters total) and the second is returned verbatim. -/
theorem jira_search_excerpt_truncation_witness :
    call_tool_inner cfHealthy jfSearch "jira_search"
        [("jql", JVal.jstr "project=P")] =
      Except.ok (ToolOutput.jiraSearch [jiraSearchItem docLong, jiraSearchItem docShort]) ∧
    (jiraSearchItem docLong).excerpt = pySlice longBody 500 ++ "..." ∧
    ((jiraSearchItem docLong).excerpt).length = 503 ∧
    (jiraSearchItem docShort).excerpt = shortBody := by
  have h := jira_search_excerpt_truncation cfHealthy jfSearch
    [("jql", JVal.jstr "project=P")] (JVal.jstr "project=P") 10 [docLong, docShort]
    rfl rfl rfl
  refine ⟨h.1, ?_, ?_, ?_⟩
  · exact (h.2.1 docLong (by simp) (by decide)).1
  · exact (h.2.1 docLong (by simp) (by decide)).2
  · exact h.2.2 docShort (by simp) (by decide)

/-- C6: `resources/read` on a space-level wiki URI (scheme
`confluence://`, a single path segment) returns all pages of the space as
`"# {title}\n\n{body}\n---"` blocks joined by blank lines; on a page-level
URI (`{space}/pages/{title}`) it returns exactly that page's body, and
raises `ValueError("Page not found: ...")` when the lookup misses. -/
theorem read_resource_wiki_paths
    (cf : ConfluenceFetcher) (jf : JiraFetcher) (uri : String) :
    (∀ space docs,
      pyStartsWith uri "confluence://" = true →
      pySplit (pyReplace uri "confluence://" "") "/" = [space] →
      cf.get_space_pages space = Except.ok docs →
      read_resource cf jf uri =
        Except.ok (String.intercalate "\n\n"
          (docs.map (fun d => "# " ++ d.title ++ "\n\n" ++ d.page_content ++ "\n---")))) ∧
    (∀ space title doc,
      pyStartsWith uri "confluence://" = true →
      pySplit (pyReplace uri "confluence://" "") "/" = [space, "pages", title] →
      cf.get_page_by_title space title = Except.ok (some doc) →
      read_resource cf jf uri = Except.ok doc.page_content) ∧
    (∀ space title,
      pyStartsWith uri "confluence://" = true →
      pySplit (pyReplace uri "confluence://" "") "/" = [space, "pages", title] →
      cf.get_page_by_title space title = Except.ok none →
      read_resource cf jf uri =
        Except.error (valueError ("Page not found: " ++ title))) := by
  refine ⟨?_, ?_, ?_⟩
  · intro space docs hscheme hparts hpages
    simp [read_resource, hscheme, hparts, hpages, renderSpacePages]
  · intro space title doc hscheme hparts hpage
    simp [read_resource, hscheme, hparts, hpage]
  · intro space title hscheme hparts hpage
    simp [read_resource, hscheme, hparts, hpage]

/-- C6 witness: The three conjuncts at the concrete fetcher `cfHealthy`
(space `DEV` with two pages; page `Home` present, page `Nope` absent). -/
theorem read_resource_wiki_paths_witness :
    read_resource cfHealthy jfHealthy "confluence://DEV" =
      Except.ok "# Home\n\nwelcome\n---\n\n# Guide\n\nsteps\n---" ∧
    read_resource cfHealthy jfHealthy "confluence://DEV/pages/Home" =
      Except.ok "welcome" ∧
    read_resource cfHealthy jfHealthy "confluence://DEV/pages/Nope" =
      Except.error (valueError "Page not found: Nope") := by
  refine ⟨?_, ?_, ?_⟩
  · exact ((read_resource_wiki_paths cfHealthy jfHealthy "confluence://DEV").1
      "DEV" [⟨"Home", "welcome"⟩, ⟨"Guide", "steps"⟩] rfl (by decide) rfl).trans rfl
  · exact (read_resource_wiki_paths cfHealthy jfHealthy "confluence://DEV/pages/Home").2.1
      "DEV" "Home" ⟨"Home", "welcome"⟩ rfl (by decide) rfl
  · exact ((read_resource_wiki_paths cfHealthy jfHealthy "confluence://DEV/pages/Nope").2.2
      "DEV" "Nope" rfl (by decide) rfl).trans rfl

/-- C7: `resources/read` fails with the `"Invalid resource URI"` error
for every URI whose scheme is neither `confluence://` nor `jira://`, and for
every URI with a recognized scheme whose path segments match neither the
single-segment shape nor the `segment/pages/title` (resp. `segment/issues/key`)
shape. -/
theorem read_resource_invalid_uri
    (cf : ConfluenceFetcher) (jf : JiraFetcher) (uri : String) :
    (pyStartsWith uri "confluence://" = false →
     pyStartsWith uri "jira://" = false →
     read_resource cf jf uri =
       Except.error (valueError ("Invalid resource URI: " ++ uri))) ∧
    (∀ parts,
      pyStartsWith uri "confluence://" = true →
      pySplit (pyReplace uri "confluence://" "") "/" = parts →
      parts.length ≠ 1 →
      ¬ (3 ≤ parts.length ∧ parts.getD 1 "" = "pages") →
      read_resource cf jf uri =
        Except.error (valueError ("Invalid resource URI: " ++ uri))) ∧
    (∀ parts,
      pyStartsWith uri "jira://" = true →
      pySplit (pyReplace uri "jira://" "") "/" = parts →
      parts.length ≠ 1 →
      ¬ (3 ≤ parts.length ∧ parts.getD 1 "" = "issues") →
      read_resource cf jf uri =
        Except.error (valueError ("Invalid resource URI: " ++ uri))) := by
  refine ⟨?_, ?_, ?_⟩
  · intro hc hj
    simp [read_resource, hc, hj]
  · intro parts hscheme hparts hlen hshape
    simp [read_resource, hscheme, hparts, hlen, hshape]
    intro h1 h2
    exact absurd ⟨h1, by simpa [List.getD] using h2⟩ hshape
  · intro parts hscheme hparts hlen hshape
    have hc : pyStartsWith uri "confluence://" = false := by
      by_contra hb
      rw [Bool.not_eq_false] at hb
      unfold pyStartsWith at hscheme hb
      rw [ List.isPrefixOf_iff_prefix] at hscheme hb
      rcases List.prefix_or_prefix_of_prefix hb hscheme with hp | hp
      · exact absurd hp (by decide)
      · exact absurd hp (by decide)
    simp [read_resource, hc, hscheme, hparts, hlen, hshape]
    intro h1 h2
    exact absurd ⟨h1, by simpa [List.getD] using h2⟩ hshape

/-- C7 witness: An unrecognized scheme, a malformed wiki path (two
segments whose second is not `pages`), and a malformed tracker path all
produce the invalid-URI error. -/
theorem read_resource_invalid_uri_witness :
    read_resource cfHealthy jfHealthy "bogus://x" =
      Except.error (valueError "Invalid resource URI: bogus://x") ∧
    read_resource cfHealthy jfHealthy "confluence://DEV/attachments" =
      Except.error (valueError "Invalid resource URI: confluence://DEV/attachments") ∧
    read_resource cfHealthy jfHealthy "jira://PROJ/boards/1" =
      Except.error (valueError "Invalid resource URI: jira://PROJ/boards/1") := by
  refine ⟨?_, ?_, ?_⟩
  · exact ((read_resource_invalid_uri cfHealthy jfHealthy "bogus://x").1
      (by decide) (by decide)).trans rfl
  · exact ((read_resource_invalid_uri cfHealthy jfHealthy "confluence://DEV/attachments").2.1
      ["DEV", "attachments"] (by decide) (by decide) (by decide) (by decide)).trans rfl
  · exact ((read_resource_invalid_uri cfHealthy jfHealthy "jira://PROJ/boards/1").2.2
      ["PROJ", "boards", "1"] (by decide) (by decide) (by decide) (by decide)).trans rfl

/-- C8: `initialize` validation collects all missing required top-level
fields and reports them together as one missing-field set in a single
failure; in particular, params containing `protocolVersion` and `clientInfo`
but not `capabilities` fail with a missing set of exactly `capabilities`. -/
theorem initialize_missing_fields_reported_together (p : PyDict) :
    (∀ miss,
      required_fields_init.filter (fun kv => !(hasKey p kv.1)) = miss →
      miss ≠ [] →
      validate_initialize_params (some p) =
        Except.error ⟨400,
          VDetail.missingFields "Initialize request missing required fields" miss⟩) ∧
    (hasKey p "protocolVersion" = true →
     hasKey p "clientInfo" = true →
     hasKey p "capabilities" = false →
     validate_initialize_params (some p) =
       Except.error ⟨400,
         VDetail.missingFields "Initialize request missing required fields"
           [("capabilities", "Client capabilities are required for capability negotiation")]⟩) := by
  constructor
  · intro miss hmiss hne
    match hm : miss, hne with
    | a :: as, _ =>
      simp only [validate_initialize_params, hmiss]
  · intro h1 h2 h3
    have hfilter : required_fields_init.filter (fun kv => !(hasKey p kv.1)) =
        [("capabilities", "Client capabilities are required for capability negotiation")] := by
      simp [required_fields_init, List.filter, h1, h2, h3]
    simp only [validate_initialize_params, hfilter]

/-- C8 witness: Concrete params with `protocolVersion` and `clientInfo`
but no `capabilities` fail with exactly `capabilities` reported missing. -/
theorem initialize_missing_fields_reported_together_witness :
    validate_initialize_params
        (some [("protocolVersion", JVal.jstr "2024-11-05"),
               ("clientInfo", JVal.jobj [("name", JVal.jstr "c"), ("version", JVal.jstr "1")])]) =
      Except.error ⟨400,
        VDetail.missingFields "Initialize request missing required fields"
          [("capabilities", "Client capabilities are required for capability negotiation")]⟩ :=
  (initialize_missing_fields_reported_together
      [("protocolVersion", JVal.jstr "2024-11-05"),
       ("clientInfo", JVal.jobj [("name", JVal.jstr "c"), ("version", JVal.jstr "1")])]).2
    rfl rfl rfl

/-- C10: On the issue-read path the project segment is never inspected:
any two `jira://{p}/issues/{key}` URIs differing only in the project segment
produce the same `resources/read` outcome, which depends only on the issue
key. -/
theorem issue_read_ignores_project_segment
    (cf : ConfluenceFetcher) (jf : JiraFetcher)
    (u₁ u₂ p₁ p₂ key : String)
    (hj₁ : pyStartsWith u₁ "jira://" = true)
    (hj₂ : pyStartsWith u₂ "jira://" = true)
    (hp₁ : pySplit (pyReplace u₁ "jira://" "") "/" = [p₁, "issues", key])
    (hp₂ : pySplit (pyReplace u₂ "jira://" "") "/" = [p₂, "issues", key]) :
    read_resource cf jf u₁ = read_resource cf jf u₂ := by
  have hc : ∀ u : String, pyStartsWith u "jira://" = true →
      pyStartsWith u "confluence://" = false := by
    intro u hj
    by_contra hb
    rw [Bool.not_eq_false] at hb
    unfold pyStartsWith at hj hb
    rw [ List.isPrefixOf_iff_prefix] at hj hb
    rcases List.prefix_or_prefix_of_prefix hb hj with hp | hp
    · exact absurd hp (by decide)
    · exact absurd hp (by decide)
  simp [read_resource, hc u₁ hj₁, hc u₂ hj₂, hj₁, hj₂, hp₁, hp₂]

/-- C10 witness: Reading `jira://ALPHA/issues/KEY-9` and
`jira://BETA/issues/KEY-9` yields the same outcome. -/
theorem issue_read_ignores_project_segment_witness :
    read_resource cfHealthy jfHealthy "jira://ALPHA/issues/KEY-9" =
      read_resource cfHealthy jfHealthy "jira://BETA/issues/KEY-9" :=
  issue_read_ignores_project_segment cfHealthy jfHealthy
    "jira://ALPHA/issues/KEY-9" "jira://BETA/issues/KEY-9" "ALPHA" "BETA" "KEY-9"
    rfl rfl (by decide) (by decide)

end MCPAtlassian
